import Mathlib

/-!
Verification of the SaaS HR Platform backend (`src/main.py`, `src/schemas.py`).

The backend is a FastAPI application with four endpoints:
* `GET /`            — fixed JSON message, 200
* `GET /api/hello`   — fixed JSON message, 200
* `GET /test`        — database-connectivity diagnostic, all failures caught
* `GET /schema`      — exports JSON-schema documents for every Pydantic model
                       registered in `schemas.py` (8 HR models)

We shallowly embed the data model and the handlers.  Pydantic field
declarations are embedded as `FieldSpec` records (name, default/required
status, numeric bounds), each model class as a `ModelSpec`, and
`model_json_schema` as the function extracting the per-field property
documents and the `required` list.  `inspect.getmembers` enumerates the
module's classes sorted alphabetically by name; the `registry` list below is
in that order.  The world visible to a handler (environment variables, the
optional database module) is a `World`; a handler that can only observe the
world is a function of it.
-/

/-- Default values appearing in the Pydantic field declarations of
`schemas.py`: `None`, strings, booleans and numbers (list-valued defaults
only arise through `default_factory=list`, captured separately). -/
inductive PyVal where
  | none
  | str (s : String)
  | int (n : Int)
  | bool (b : Bool)
deriving DecidableEq, Repr

/-- The default status of a Pydantic field: `required` for `Field(...)`,
`value v` for an explicit default (including `None`), `factoryList` for
`default_factory=list`. -/
inductive FieldDefault where
  | required
  | value (v : PyVal)
  | factoryList
deriving DecidableEq, Repr

/-- One Pydantic field declaration: its name, default status, and the `ge`
and `le` numeric bounds when declared. -/
structure FieldSpec where
  name : String
  dflt : FieldDefault
  ge : Option Int := Option.none
  le : Option Int := Option.none
deriving DecidableEq, Repr

/-- A Pydantic model class of `schemas.py`: the class name and the ordered
field declarations. -/
structure ModelSpec where
  name : String
  fields : List FieldSpec
deriving DecidableEq, Repr

/-- `class Employee(BaseModel)` of `schemas.py`. -/
def Employee : ModelSpec :=
  { name := "Employee"
    fields :=
      [ { name := "first_name", dflt := .required }
      , { name := "last_name", dflt := .required }
      , { name := "email", dflt := .required }
      , { name := "phone", dflt := .value .none }
      , { name := "position", dflt := .value .none }
      , { name := "department", dflt := .value .none }
      , { name := "start_date", dflt := .value .none }
      , { name := "employment_type", dflt := .value (.str "full-time") }
      , { name := "manager_id", dflt := .value .none }
      , { name := "location", dflt := .value .none }
      , { name := "is_active", dflt := .value (.bool true) } ] }

/-- `class Job(BaseModel)` of `schemas.py`. -/
def Job : ModelSpec :=
  { name := "Job"
    fields :=
      [ { name := "title", dflt := .required }
      , { name := "department", dflt := .value .none }
      , { name := "description", dflt := .value .none }
      , { name := "location", dflt := .value .none }
      , { name := "employment_type", dflt := .value (.str "full-time") }
      , { name := "salary_min", dflt := .value .none, ge := some 0 }
      , { name := "salary_max", dflt := .value .none, ge := some 0 }
      , { name := "skills", dflt := .factoryList }
      , { name := "is_open", dflt := .value (.bool true) } ] }

/-- `class Applicant(BaseModel)` of `schemas.py`. -/
def Applicant : ModelSpec :=
  { name := "Applicant"
    fields :=
      [ { name := "name", dflt := .required }
      , { name := "email", dflt := .required }
      , { name := "phone", dflt := .value .none }
      , { name := "job_id", dflt := .value .none }
      , { name := "resume_url", dflt := .value .none }
      , { name := "cover_letter", dflt := .value .none }
      , { name := "status", dflt := .value (.str "applied") } ] }

/-- `class LeaveRequest(BaseModel)` of `schemas.py`. -/
def LeaveRequest : ModelSpec :=
  { name := "LeaveRequest"
    fields :=
      [ { name := "employee_id", dflt := .required }
      , { name := "leave_type", dflt := .required }
      , { name := "start_date", dflt := .required }
      , { name := "end_date", dflt := .required }
      , { name := "reason", dflt := .value .none }
      , { name := "status", dflt := .value (.str "pending") } ] }

/-- `class Attendance(BaseModel)` of `schemas.py`. -/
def Attendance : ModelSpec :=
  { name := "Attendance"
    fields :=
      [ { name := "employee_id", dflt := .required }
      , { name := "date", dflt := .required }
      , { name := "check_in", dflt := .value .none }
      , { name := "check_out", dflt := .value .none }
      , { name := "notes", dflt := .value .none } ] }

/-- `class Payroll(BaseModel)` of `schemas.py`. -/
def Payroll : ModelSpec :=
  { name := "Payroll"
    fields :=
      [ { name := "employee_id", dflt := .required }
      , { name := "period_start", dflt := .required }
      , { name := "period_end", dflt := .required }
      , { name := "base_pay", dflt := .required, ge := some 0 }
      , { name := "bonus", dflt := .value (.int 0), ge := some 0 }
      , { name := "deductions", dflt := .value (.int 0), ge := some 0 }
      , { name := "net_pay", dflt := .value .none, ge := some 0 } ] }

/-- `class PerformanceReview(BaseModel)` of `schemas.py`; `rating` is
declared `Field(..., ge=1, le=5)`. -/
def PerformanceReview : ModelSpec :=
  { name := "PerformanceReview"
    fields :=
      [ { name := "employee_id", dflt := .required }
      , { name := "reviewer_id", dflt := .value .none }
      , { name := "review_date", dflt := .required }
      , { name := "rating", dflt := .required, ge := some 1, le := some 5 }
      , { name := "strengths", dflt := .factoryList }
      , { name := "improvements", dflt := .factoryList }
      , { name := "comments", dflt := .value .none } ] }

/-- `class Announcement(BaseModel)` of `schemas.py`. -/
def Announcement : ModelSpec :=
  { name := "Announcement"
    fields :=
      [ { name := "title", dflt := .required }
      , { name := "body", dflt := .required }
      , { name := "audience", dflt := .value (.str "all") }
      , { name := "priority", dflt := .value (.str "normal") } ] }

/-- The fixed registry produced by `inspect.getmembers(app_schemas)` in
`get_schemas` after the filter `isclass ∧ issubclass BaseModel ∧ ≠ BaseModel`:
exactly the 8 model classes of `schemas.py` (the imported `BaseModel`,
`Field`, `date`, `Optional`, `List` are excluded by the filter), sorted
alphabetically by class name, which is the order `inspect.getmembers`
returns. -/
def registry : List ModelSpec :=
  [ Announcement, Applicant, Attendance, Employee, Job, LeaveRequest
  , Payroll, PerformanceReview ]

/-- Embedding of Python `str.lower()` as used in `collection = name.lower()`
(`src/main.py` line 80): lowercase every character. -/
def pyLower (s : String) : String :=
  String.mk (s.data.map Char.toLower)

/-- The part of a field's JSON-schema property document the claims are
about: the `minimum` and `maximum` bounds and the `default` value. -/
structure PropSchema where
  minimum : Option Int
  maximum : Option Int
  dflt : Option PyVal
deriving DecidableEq, Repr

/-- The property document Pydantic emits for one field: `ge` becomes
`minimum`, `le` becomes `maximum`, an explicit default value is recorded as
`default` (a `default_factory` emits no `default` key). -/
def fieldProp (f : FieldSpec) : PropSchema :=
  { minimum := f.ge
    maximum := f.le
    dflt := match f.dflt with
      | .value v => some v
      | _ => Option.none }

/-- The JSON-schema document exported for one model: the per-field property
documents (`properties`) and the list of required field names (`required`). -/
structure JsonSchemaDoc where
  properties : List (String × PropSchema)
  required : List String
deriving DecidableEq, Repr

/-- Embedding of `obj.model_json_schema()`: every field contributes a
property document, and a field is required exactly when it was declared
`Field(...)` with no default and no default factory. -/
def model_json_schema (m : ModelSpec) : JsonSchemaDoc :=
  { properties := m.fields.map (fun f => (f.name, fieldProp f))
    required := (m.fields.filter (fun f => f.dflt = .required)).map (fun f => f.name) }

/-- Outcome of the optional database probe performed by `/test`:
`from database import db` may fail with `ImportError` (`importError`) or any
other exception (`otherError`); on success `db` may be `None` (`dbNone`) or
a handle (`connected`) carrying `db.name` when present and the result of
`db.list_collection_names()`, which is a name list or an exception. -/
inductive DbProbe where
  | importError
  | otherError (msg : String)
  | dbNone
  | connected (dbName : Option String) (listResult : Except String (List String))
deriving Repr

/-- The state a handler can observe: the environment variables
(`os.getenv`) and the outcome the database probe would have. -/
structure World where
  env : String → Option String
  probe : DbProbe

/-- Python truthiness of an `os.getenv` result: unset and the empty string
are falsy. -/
def envTruthy (v : Option String) : Bool :=
  match v with
  | Option.none => false
  | some s => s ≠ ""

/-- The `/test` response dictionary (`response` in `test_database`). -/
structure TestResponse where
  backend : String
  database : String
  database_url : Option String
  database_name : Option String
  connection_status : String
  collections : List String
deriving DecidableEq, Repr

/-- Embedding of the `test_database` handler (`GET /test`,
`src/main.py` lines 28–67): the initial `response` dict is updated through
the try/except ladder according to the probe outcome, and finally
`database_url` / `database_name` are overwritten from the environment
variables. -/
def test_database (probe : DbProbe) (env : String → Option String) : TestResponse :=
  let r : TestResponse :=
    { backend := "✅ Running"
      database := "❌ Not Available"
      database_url := Option.none
      database_name := Option.none
      connection_status := "Not Connected"
      collections := [] }
  let r :=
    match probe with
    | .importError =>
        { r with database := "❌ Database module not found (run enable-database first)" }
    | .otherError msg =>
        { r with database := "❌ Error: " ++ msg.take 50 }
    | .dbNone =>
        { r with database := "⚠️  Available but not initialized" }
    | .connected dbName listResult =>
        let r :=
          { r with
            database := "✅ Available"
            database_url := some "✅ Configured"
            database_name := some (dbName.getD "✅ Connected")
            connection_status := "Connected" }
        match listResult with
        | .ok collections =>
            { r with
              collections := collections.take 10
              database := "✅ Connected & Working" }
        | .error e =>
            { r with database := "⚠️  Connected but Error: " ++ e.take 50 }
  { r with
    database_url := some (if envTruthy (env "DATABASE_URL") then "✅ Set" else "❌ Not Set")
    database_name := some (if envTruthy (env "DATABASE_NAME") then "✅ Set" else "❌ Not Set") }

/-- The `/test` route: the handler body is total over every probe outcome
(every exception is caught), so FastAPI always serializes the returned dict
with status 200. -/
def test_endpoint (w : World) : Nat × TestResponse :=
  (200, test_database w.probe w.env)

/-- Body of a fixed-message endpoint: `{"message": ...}`. -/
structure MsgBody where
  message : String
deriving DecidableEq, Repr

/-- Embedding of `read_root` (`GET /`): a constant body, status 200. -/
def read_root (_ : World) : Nat × MsgBody :=
  (200, { message := "SaaS HR API is running" })

/-- Embedding of `hello` (`GET /api/hello`): a constant body, status 200. -/
def hello (_ : World) : Nat × MsgBody :=
  (200, { message := "Hello from the HR backend API!" })

/-- Body of the `/schema` response: the dict built by the loop in
`get_schemas`, wrapped under the single key `schemas`. -/
structure SchemaBody where
  schemas : List (String × JsonSchemaDoc)
deriving DecidableEq, Repr

/-- Embedding of the `get_schemas` handler (`GET /schema`,
`src/main.py` lines 70–83): for every registered model, the collection key
is the lowercase class name and the value is its JSON-schema document.  The
handler reads nothing from the world. -/
def get_schemas (_ : World) : SchemaBody :=
  { schemas := registry.map (fun m => (pyLower m.name, model_json_schema m)) }

/-- The `/schema` route on success: status 200 and the body. -/
def schema_endpoint (w : World) : Nat × SchemaBody :=
  (200, get_schemas w)

/-- `get_schemas` with the per-model introspection abstracted: the loop
body calls `obj.model_json_schema()`, which may raise; the handler has no
try/except, so the first exception aborts the loop and propagates. -/
def introspectAll (f : ModelSpec → Except String JsonSchemaDoc) :
    List ModelSpec → Except String (List (String × JsonSchemaDoc))
  | [] => .ok []
  | m :: rest =>
      match f m with
      | .error e => .error e
      | .ok d =>
          match introspectAll f rest with
          | .error e => .error e
          | .ok tail => .ok ((pyLower m.name, d) :: tail)

/-- The `/schema` route with abstracted introspection: an uncaught exception
in the handler makes FastAPI answer 500 with no schema body; otherwise 200
with the mapping wrapped under `schemas`. -/
def schema_endpointE (f : ModelSpec → Except String JsonSchemaDoc) :
    Nat × Option SchemaBody :=
  match introspectAll f registry with
  | .error _ => (500, Option.none)
  | .ok l => (200, some { schemas := l })

/-- Whether an introspection result is a success. -/
def exOk (r : Except String JsonSchemaDoc) : Bool :=
  match r with
  | .ok _ => true
  | .error _ => false

/-- A fixed world used to state closed facts about handlers that ignore the
world. -/
def anyWorld : World :=
  { env := fun _ => Option.none, probe := .importError }

/-- The collection keys of the `/schema` response. -/
def schemaKeys : List String :=
  (get_schemas anyWorld).schemas.map Prod.fst

/-- Whether the document exported for model `m` records the declared default
value of field `f`: vacuously true for required and factory fields, and for
a field with an explicit default `v` the property document found under the
field's name must carry `default = v`. -/
def defaultRecorded (m : ModelSpec) (f : FieldSpec) : Bool :=
  match f.dflt with
  | .value v =>
      (List.lookup f.name (model_json_schema m).properties).bind PropSchema.dflt == some v
  | _ => true

/-- C1: applied to the fixed registry, `/schema` returns under `schemas` a
mapping whose key set is exactly the 8 keys `employee, job, applicant,
leaverequest, attendance, payroll, performancereview, announcement` — no
more, no fewer (listed here in the response order, which is alphabetical). -/
theorem schema_key_set (w : World) :
    ((get_schemas w).schemas.map Prod.fst) =
      [ "announcement", "applicant", "attendance", "employee", "job"
      , "leaverequest", "payroll", "performancereview" ] := by
  rfl

/-- The property document the `/schema` response carries for the `rating`
field of the `performancereview` collection. -/
def ratingProperty : Option PropSchema :=
  (List.lookup "performancereview" (get_schemas anyWorld).schemas).bind
    (fun d => List.lookup "rating" d.properties)

/-- C2 (counterexample): the claim that the exported document carries
minimum 0 and maximum 5 for `PerformanceReview.rating` is false: the
exported minimum is 1, not 0 (the source declares `ge=1, le=5`). -/
theorem rating_bounds_cex :
    ¬ (ratingProperty.map PropSchema.minimum = some (some 0) ∧
        ratingProperty.map PropSchema.maximum = some (some 5)) := by
  decide

/-- C2 (amended): the document exported by `/schema` for
`performancereview` carries for `rating` exactly the bounds minimum 1 and
maximum 5 (and no default). -/
theorem rating_bounds :
    ratingProperty =
      some { minimum := some 1, maximum := some 5, dflt := Option.none } := by
  decide

/-- C3: the map from registered model to collection key is total and
injective: every registered model's lowercased name appears exactly once
among the `/schema` keys, the keys are pairwise distinct, and no two
registered models share a lowercase name. -/
theorem schema_keys_total_injective :
    schemaKeys.Nodup ∧
      (∀ m ∈ registry, schemaKeys.count (pyLower m.name) = 1) ∧
      ∀ m ∈ registry, ∀ m2 ∈ registry,
        pyLower m.name = pyLower m2.name → m = m2 := by
  decide

/-- Helper: if some model of the list fails to introspect, the loop of
`get_schemas` aborts with that first error (no try/except in the handler). -/
theorem introspectAll_error_of_mem (f : ModelSpec → Except String JsonSchemaDoc)
    (l : List ModelSpec) (m : ModelSpec) (hm : m ∈ l) (hf : exOk (f m) = false) :
    ∃ e, introspectAll f l = .error e := by
  induction l with
  | nil => cases hm
  | cons a rest ih =>
      rcases List.mem_cons.mp hm with h | h
      · subst h
        cases hfa : f m with
        | error e => exact ⟨e, by simp [introspectAll, hfa]⟩
        | ok d => rw [hfa] at hf; simp [exOk] at hf
      · obtain ⟨e, he⟩ := ih h
        cases hfa : f a with
        | error e2 => exact ⟨e2, by simp [introspectAll, hfa]⟩
        | ok d => exact ⟨e, by simp [introspectAll, hfa, he]⟩

/-- Helper: if every model introspects successfully, the loop of
`get_schemas` completes with the full mapping. -/
theorem introspectAll_ok_of_all (f : ModelSpec → Except String JsonSchemaDoc)
    (l : List ModelSpec) (h : ∀ m ∈ l, exOk (f m) = true) :
    ∃ res, introspectAll f l = .ok res := by
  induction l with
  | nil => exact ⟨[], rfl⟩
  | cons a rest ih =>
      obtain ⟨res, hres⟩ := ih (fun m hm => h m (List.mem_cons_of_mem a hm))
      have ha := h a (List.mem_cons_self a rest)
      cases hfa : f a with
      | error e => rw [hfa] at ha; simp [exOk] at ha
      | ok d => exact ⟨(pyLower a.name, d) :: res, by simp [introspectAll, hfa, hres]⟩

/-- C4: if any registered model cannot be introspected, `/schema` fails
with a non-200 status (500) and no partial mapping is returned; if every
model introspects, it returns 200 with the mapping wrapped under the single
key `schemas`. -/
theorem schema_error_propagation (f : ModelSpec → Except String JsonSchemaDoc) :
    ((∃ m ∈ registry, exOk (f m) = false) →
        (schema_endpointE f).1 = 500 ∧ (schema_endpointE f).2 = Option.none) ∧
      ((∀ m ∈ registry, exOk (f m) = true) →
        (schema_endpointE f).1 = 200 ∧ ∃ b, (schema_endpointE f).2 = some b) := by
  constructor
  · rintro ⟨m, hm, hf⟩
    obtain ⟨e, he⟩ := introspectAll_error_of_mem f registry m hm hf
    simp [schema_endpointE, he]
  · intro h
    obtain ⟨res, hres⟩ := introspectAll_ok_of_all f registry h
    refine ⟨?_, { schemas := res }, ?_⟩ <;> simp [schema_endpointE, hres]

/-- Witness for C4 at concrete introspection functions: an everywhere-failing
introspection yields status 500, the real one yields status 200. -/
theorem schema_error_propagation_witness :
    (schema_endpointE fun _ => .error "boom").1 = 500 ∧
      (schema_endpointE fun m => .ok (model_json_schema m)).1 = 200 :=
  ⟨((schema_error_propagation fun _ => .error "boom").1
      ⟨Employee, by decide, rfl⟩).1,
   ((schema_error_propagation fun m => .ok (model_json_schema m)).2
      (fun m _ => rfl)).1⟩

/-- C5: `/schema` is deterministic over the fixed registry: any two
invocations, whatever the ambient world, produce identical status and
identical response bodies (so their serializations are byte-identical). -/
theorem schema_deterministic (w1 w2 : World) :
    schema_endpoint w1 = schema_endpoint w2 := rfl

/-- C6: for every registered model and every field: a field declared
required is listed in the exported document's `required` list, and a field
with a declared default value has that value recorded in its exported
property document. -/
theorem required_and_defaults :
    ∀ m ∈ registry, ∀ f ∈ m.fields,
      (f.dflt = FieldDefault.required → f.name ∈ (model_json_schema m).required) ∧
      defaultRecorded m f = true := by
  decide

/-- Witness for C6 at `Employee`: the required `first_name` is listed in
`required`, and the declared default of `employment_type` is recorded. -/
theorem required_and_defaults_witness :
    "first_name" ∈ (model_json_schema Employee).required ∧
      defaultRecorded Employee
        { name := "employment_type", dflt := .value (.str "full-time") } = true :=
  ⟨(required_and_defaults Employee (by decide)
      { name := "first_name", dflt := .required } (by decide)).1 rfl,
   (required_and_defaults Employee (by decide)
      { name := "employment_type", dflt := .value (.str "full-time") } (by decide)).2⟩

/-- C7: `/test` answers 200 for every outcome of the database probe, and
each failure mode is rendered as a descriptive string in the `database`
field of the body (import failure, other import-time exception, listing
exception) rather than raised. -/
theorem test_never_fails (env : String → Option String) (e : String)
    (dbName : Option String) (probe : DbProbe) :
    (test_endpoint { env := env, probe := probe }).1 = 200 ∧
      (test_database .importError env).database =
        "❌ Database module not found (run enable-database first)" ∧
      (test_database (.otherError e) env).database = "❌ Error: " ++ e.take 50 ∧
      (test_database .dbNone env).database = "⚠️  Available but not initialized" ∧
      (test_database (.connected dbName (.error e)) env).database =
        "⚠️  Connected but Error: " ++ e.take 50 :=
  ⟨rfl, rfl, rfl, rfl, rfl⟩

/-- C8: the `collections` field of the `/test` response is the first 10
collection names returned by the probe (`collections[:10]`), and in every
case it has at most 10 entries. -/
theorem collections_truncated (env : String → Option String)
    (dbName : Option String) (cols : List String) (probe : DbProbe) :
    (test_database (.connected dbName (.ok cols)) env).collections = cols.take 10 ∧
      (test_database probe env).collections.length ≤ 10 := by
  refine ⟨rfl, ?_⟩
  cases probe with
  | importError => show ([] : List String).length ≤ 10; simp
  | otherError msg => show ([] : List String).length ≤ 10; simp
  | dbNone => show ([] : List String).length ≤ 10; simp
  | connected n lr =>
      cases lr with
      | error e2 => show ([] : List String).length ≤ 10; simp
      | ok c =>
          show (c.take 10).length ≤ 10
          rw [List.length_take]
          exact min_le_left _ _

/-- C9: `GET /` and `GET /api/hello` return their fixed single-key JSON
messages with status 200 on every invocation, independently of the world
(no input, no environment, no side effect in the embedding). -/
theorem fixed_messages (w w2 : World) :
    read_root w = (200, { message := "SaaS HR API is running" }) ∧
      hello w = (200, { message := "Hello from the HR backend API!" }) ∧
      read_root w = read_root w2 ∧ hello w = hello w2 :=
  ⟨rfl, rfl, rfl, rfl⟩

/-- C10: the final `database_url` and `database_name` fields of the `/test`
response depend only on whether `DATABASE_URL` / `DATABASE_NAME` are set
(non-empty), never on the probe outcome: the values assigned during a
successful probe are always overwritten before the response is returned. -/
theorem env_flags_overwrite (p1 p2 : DbProbe) (env : String → Option String) :
    (test_database p1 env).database_url = (test_database p2 env).database_url ∧
      (test_database p1 env).database_name = (test_database p2 env).database_name ∧
      (test_database p1 env).database_url =
        some (if envTruthy (env "DATABASE_URL") then "✅ Set" else "❌ Not Set") ∧
      (test_database p1 env).database_name =
        some (if envTruthy (env "DATABASE_NAME") then "✅ Set" else "❌ Not Set") := by
  have hu : ∀ p, (test_database p env).database_url =
      some (if envTruthy (env "DATABASE_URL") then "✅ Set" else "❌ Not Set") := by
    intro p
    cases p with
    | importError => rfl
    | otherError msg => rfl
    | dbNone => rfl
    | connected n lr => cases lr <;> rfl
  have hn : ∀ p, (test_database p env).database_name =
      some (if envTruthy (env "DATABASE_NAME") then "✅ Set" else "❌ Not Set") := by
    intro p
    cases p with
    | importError => rfl
    | otherError msg => rfl
    | dbNone => rfl
    | connected n lr => cases lr <;> rfl
  exact ⟨(hu p1).trans (hu p2).symm, (hn p1).trans (hn p2).symm, hu p1, hn p1⟩
